import Mathlib

/-!
# Verification of the DynamoDB query-result cache (`cache_dynamodb.py`)

Shallow embedding of the cache subsystem of this repository:
the fingerprint function `create_query_hash`, the store operations
`get_cached_answer`, `put_cached_answer`, `invalidate_cache`,
`cleanup_expired_cache` and `get_cache_stats`.

The DynamoDB table is modelled as an association list from the primary key
`query_hash` to the stored item; `put_item` is a full overwrite,
`delete_item` removes the key unconditionally (it succeeds whether or not
the item exists), `update_item` with
`SET access_count = if_not_exists(access_count, :zero) + :inc` bumps the
access counter of a present item.  The ambient wall clock (`int(time.time())`)
is passed explicitly as an integer parameter.
-/

namespace AgenticQACache

/-! ## Python string helpers

`create_query_hash` normalizes with `user_query.strip().lower()` and hashes
the UTF-8 encoding of the result with SHA-256 (`hashlib.sha256(...).hexdigest()`).
We model `str.strip`/`str.lower` over the ASCII range (the simple case folding
and whitespace set the queries of this system use).
-/

/-- The ASCII whitespace characters removed by Python `str.strip()`:
space, tab, newline, carriage return, vertical tab, form feed. -/
def isPySpace (c : Char) : Bool :=
  c = ' ' || c = Char.ofNat 9 || c = Char.ofNat 10 || c = Char.ofNat 13 ||
  c = Char.ofNat 11 || c = Char.ofNat 12

/-- Python `str.strip()`: drop leading and trailing whitespace. -/
def pyStrip (s : String) : String :=
  ⟨((s.data.dropWhile isPySpace).reverse.dropWhile isPySpace).reverse⟩

/-- Python `str.lower()` (ASCII case folding). -/
def pyLower (s : String) : String :=
  ⟨s.data.map Char.toLower⟩

/-- The normalization `user_query.strip().lower()` of `create_query_hash`. -/
def pyNormalize (s : String) : String :=
  pyLower (pyStrip s)

/-- UTF-8 encoding of one code point, as a list of byte values. -/
def utf8Char (n : Nat) : List Nat :=
  if n < 0x80 then [n]
  else if n < 0x800 then [0xC0 ||| (n >>> 6), 0x80 ||| (n &&& 0x3F)]
  else if n < 0x10000 then
    [0xE0 ||| (n >>> 12), 0x80 ||| ((n >>> 6) &&& 0x3F), 0x80 ||| (n &&& 0x3F)]
  else
    [0xF0 ||| (n >>> 18), 0x80 ||| ((n >>> 12) &&& 0x3F),
     0x80 ||| ((n >>> 6) &&& 0x3F), 0x80 ||| (n &&& 0x3F)]

/-- `s.encode("utf-8")` as a list of byte values. -/
def utf8Bytes (s : String) : List Nat :=
  s.data.foldr (fun c acc => utf8Char c.toNat ++ acc) []

/-! ## SHA-256 (`hashlib.sha256`)

Standard FIPS 180-4 SHA-256 over byte lists, with 32-bit words represented
as natural numbers reduced modulo `2^32` wherever the machine arithmetic
overflows. -/

/-- The 32-bit word modulus. -/
def M32 : Nat := 2 ^ 32

/-- Rotate a 32-bit word right by `n` bits. -/
def rotr (n w : Nat) : Nat :=
  ((w >>> n) ||| (w <<< (32 - n))) % M32

/-- SHA-256 Σ₀. -/
def bigS0 (x : Nat) : Nat := rotr 2 x ^^^ rotr 13 x ^^^ rotr 22 x

/-- SHA-256 Σ₁. -/
def bigS1 (x : Nat) : Nat := rotr 6 x ^^^ rotr 11 x ^^^ rotr 25 x

/-- SHA-256 σ₀. -/
def smallS0 (x : Nat) : Nat := rotr 7 x ^^^ rotr 18 x ^^^ (x >>> 3)

/-- SHA-256 σ₁. -/
def smallS1 (x : Nat) : Nat := rotr 17 x ^^^ rotr 19 x ^^^ (x >>> 10)

/-- SHA-256 Ch: `(x ∧ y) ⊕ (¬x ∧ z)` on 32-bit words. -/
def chF (x y z : Nat) : Nat := (x &&& y) ^^^ ((x ^^^ 0xFFFFFFFF) &&& z)

/-- SHA-256 Maj. -/
def majF (x y z : Nat) : Nat := (x &&& y) ^^^ (x &&& z) ^^^ (y &&& z)

/-- The 64 SHA-256 round constants (decimal rendering of the FIPS 180-4
table). -/
def K256 : List Nat :=
  [1116352408, 1899447441, 3049323471, 3921009573, 961987163, 1508970993,
   2453635748, 2870763221, 3624381080, 310598401, 607225278, 1426881987,
   1925078388, 2162078206, 2614888103, 3248222580, 3835390401, 4022224774,
   264347078, 604807628, 770255983, 1249150122, 1555081692, 1996064986,
   2554220882, 2821834349, 2952996808, 3210313671, 3336571891, 3584528711,
   113926993, 338241895, 666307205, 773529912, 1294757372, 1396182291,
   1695183700, 1986661051, 2177026350, 2456956037, 2730485921, 2820302411,
   3259730800, 3345764771, 3516065817, 3600352804, 4094571909, 275423344,
   430227734, 506948616, 659060556, 883997877, 958139571, 1322822218,
   1537002063, 1747873779, 1955562222, 2024104815, 2227730452, 2361852424,
   2428436474, 2756734187, 3204031479, 3329325298]

/-- Pad a message (list of bytes) to a multiple of 64 bytes: append `0x80`,
then zero bytes, then the 8-byte big-endian bit length. -/
def sha256Pad (msg : List Nat) : List Nat :=
  let L := 8 * msg.length
  let zeros := (119 - msg.length % 64) % 64
  msg ++ [0x80] ++ List.replicate zeros 0 ++
    [(L >>> 56) % 256, (L >>> 48) % 256, (L >>> 40) % 256, (L >>> 32) % 256,
     (L >>> 24) % 256, (L >>> 16) % 256, (L >>> 8) % 256, L % 256]

/-- Group a 64-byte block into sixteen big-endian 32-bit words. -/
def wordsOfBytes (l : List Nat) : List Nat :=
  (List.range (l.length / 4)).map fun i =>
    (l.getD (4 * i) 0) <<< 24 ||| (l.getD (4 * i + 1) 0) <<< 16 |||
    (l.getD (4 * i + 2) 0) <<< 8 ||| l.getD (4 * i + 3) 0

/-- Extend sixteen message words to the 64-entry message schedule. -/
def schedule (w : List Nat) : List Nat :=
  (List.range 48).foldl
    (fun acc i =>
      acc ++ [(smallS1 (acc.getD (i + 14) 0) + acc.getD (i + 9) 0 +
               smallS0 (acc.getD (i + 1) 0) + acc.getD i 0) % M32])
    w

/-- The eight 32-bit working variables of SHA-256. -/
structure Hash8 where
  a : Nat
  b : Nat
  c : Nat
  d : Nat
  e : Nat
  f : Nat
  g : Nat
  h : Nat
deriving Repr, DecidableEq

/-- The SHA-256 initial hash value (decimal rendering of the FIPS 180-4
table). -/
def initH : Hash8 :=
  ⟨1779033703, 3144134277, 1013904242, 2773480762,
   1359893119, 2600822924, 528734635, 1541459225⟩

/-- One SHA-256 compression round. -/
def sha256Round (s : Hash8) (ki wi : Nat) : Hash8 :=
  let t1 := (s.h + bigS1 s.e + chF s.e s.f s.g + ki + wi) % M32
  let t2 := (bigS0 s.a + majF s.a s.b s.c) % M32
  ⟨(t1 + t2) % M32, s.a, s.b, s.c, (s.d + t1) % M32, s.e, s.f, s.g⟩

/-- Compress one 64-byte block into the running hash state. -/
def compress (h0 : Hash8) (block : List Nat) : Hash8 :=
  let w := schedule (wordsOfBytes block)
  let s := (List.range 64).foldl
    (fun s i => sha256Round s (K256.getD i 0) (w.getD i 0)) h0
  ⟨(h0.a + s.a) % M32, (h0.b + s.b) % M32, (h0.c + s.c) % M32,
   (h0.d + s.d) % M32, (h0.e + s.e) % M32, (h0.f + s.f) % M32,
   (h0.g + s.g) % M32, (h0.h + s.h) % M32⟩

/-- SHA-256 of a byte list, as eight 32-bit words. -/
def sha256Words (msg : List Nat) : Hash8 :=
  let padded := sha256Pad msg
  ((List.range (padded.length / 64)).map
    (fun i => (padded.drop (64 * i)).take 64)).foldl compress initH

/-- Lower-case hexadecimal digit for a value below 16. -/
def hexDigit (n : Nat) : Char :=
  if n < 10 then Char.ofNat (48 + n) else Char.ofNat (87 + n)

/-- The eight-character big-endian hex rendering of a 32-bit word. -/
def wordHex (w : Nat) : List Char :=
  [hexDigit (w / 16 ^ 7 % 16), hexDigit (w / 16 ^ 6 % 16),
   hexDigit (w / 16 ^ 5 % 16), hexDigit (w / 16 ^ 4 % 16),
   hexDigit (w / 16 ^ 3 % 16), hexDigit (w / 16 ^ 2 % 16),
   hexDigit (w / 16 % 16), hexDigit (w % 16)]

/-- `hashlib.sha256(s.encode("utf-8")).hexdigest()`: the 64-character
lower-case hex digest. -/
def sha256hex (s : String) : String :=
  let d := sha256Words (utf8Bytes s)
  ⟨wordHex d.a ++ wordHex d.b ++ wordHex d.c ++ wordHex d.d ++
   wordHex d.e ++ wordHex d.f ++ wordHex d.g ++ wordHex d.h⟩

/-- `create_query_hash` (src/cache_dynamodb.py:78-86): the empty (falsy)
string maps to the sentinel `""`; otherwise the query is stripped,
lower-cased and SHA-256-hashed. -/
def create_query_hash (user_query : String) : String :=
  if user_query = "" then ""
  else sha256hex (pyNormalize user_query)

/-! ## The cache table and its operations -/

/-- One item of the DynamoDB cache table, with the attributes written by
`put_cached_answer` (src/cache_dynamodb.py:142-150).  `ttl` is the absolute
expiry timestamp `expire_at`; `retrieved_docs` is the optional attribute
added only when the caller supplies it (the code stores `str(retrieved_docs)`;
we model the already-stringified value). -/
structure CacheItem where
  user_query : String
  answer : String
  ttl : Int
  created_at : Int
  access_count : Nat
  last_accessed : Int
  retrieved_docs : Option String
deriving Repr, DecidableEq

/-- The cache table: a mapping from the primary key `query_hash` to the item,
as an association list. -/
abbrev Table := List (String × CacheItem)

/-- `table.get_item(Key={"query_hash": k})`: key lookup. -/
def lookupItem (t : Table) (k : String) : Option CacheItem :=
  (t.find? (fun p => p.1 == k)).map (fun p => p.2)

/-- `table.delete_item(Key={"query_hash": k})`: removes the item with key `k`;
the call succeeds whether or not such an item exists. -/
def deleteItem (t : Table) (k : String) : Table :=
  t.filter (fun p => p.1 != k)

/-- `table.put_item(Item=item)`: full overwrite of the item under its key. -/
def putItem (t : Table) (k : String) (it : CacheItem) : Table :=
  (k, it) :: deleteItem t k

/-- `table.update_item(..., "SET access_count = if_not_exists(access_count, :zero) + :inc, last_accessed = :now")`:
bump the access counter and touch `last_accessed` of the item under `k`. -/
def updateAccess (t : Table) (k : String) (now : Int) : Table :=
  t.map fun p =>
    if p.1 == k then
      (p.1, { p.2 with access_count := p.2.access_count + 1, last_accessed := now })
    else p

/-- `get_cached_answer` (src/cache_dynamodb.py:92-120): fetch the item by key;
when present, bump its access stats and return the item *as read*, i.e. with
its pre-increment `access_count`.  No expiry check is performed.  Returns the
read result together with the table after the access-stats update. -/
def get_cached_answer (t : Table) (query_hash : String) (now : Int) :
    Option CacheItem × Table :=
  match lookupItem t query_hash with
  | some item => (some item, updateAccess t query_hash now)
  | none => (none, t)

/-- `DEFAULT_TTL_SECONDS = 60 * 60 * 24` (src/cache_dynamodb.py:13). -/
def DEFAULT_TTL_SECONDS : Int := 60 * 60 * 24

/-- `put_cached_answer` (src/cache_dynamodb.py:126-159): store a fresh record
under `create_query_hash user_query` with `expire_at = now + ttl_seconds`,
`created_at = now`, `access_count = 0`. -/
def put_cached_answer (t : Table) (user_query answer : String)
    (retrieved_docs : Option String) (ttl_seconds now : Int) : Table :=
  let query_hash := create_query_hash user_query
  let expire_at := now + ttl_seconds
  putItem t query_hash
    { user_query := user_query
      answer := answer
      ttl := expire_at
      created_at := now
      access_count := 0
      last_accessed := now
      retrieved_docs := retrieved_docs }

/-- Python truthiness of an optional string argument (`if query_hash:` /
`if pattern:`): `None` and the empty string are falsy. -/
def pyTruthy (o : Option String) : Bool :=
  match o with
  | none => false
  | some s => s != ""

/-- `Attr(...).contains(pat)`: substring containment. -/
def containsSub (s pat : String) : Bool :=
  (List.range (s.data.length + 1)).any fun i => pat.data.isPrefixOf (s.data.drop i)

/-- The scan-and-delete loop of `invalidate_cache` / `cleanup_expired_cache`:
delete every scanned item by its key. -/
def deleteScanned (t : Table) (items : List (String × CacheItem)) : Table :=
  items.foldl (fun acc p => deleteItem acc p.1) t

/-- `invalidate_cache` (src/cache_dynamodb.py:165-208) with a reliable
backend.  A truthy `query_hash` takes the single-key path: one unconditional
`delete_item` and a hard-coded return of 1.  Otherwise the scan path deletes
every item matching the (optional, truthiness-tested) `pattern` filter and
returns the number of items deleted. -/
def invalidate_cache (t : Table) (query_hash pattern : Option String) :
    Nat × Table :=
  if pyTruthy query_hash then
    (1, deleteItem t (query_hash.getD ""))
  else
    let items :=
      if pyTruthy pattern then
        t.filter fun p =>
          containsSub p.1 (pattern.getD "") || containsSub p.2.user_query (pattern.getD "")
      else t
    (items.length, deleteScanned t items)

/-- `cleanup_expired_cache` (src/cache_dynamodb.py:214-243) with a reliable
backend: scan with `Attr("ttl").lt(now)` and delete every expired item,
returning the number deleted. -/
def cleanup_expired_cache (t : Table) (now : Int) : Nat × Table :=
  let expired := t.filter fun p => p.2.ttl < now
  (expired.length, deleteScanned t expired)

/-- The aggregate statistics computed by `get_cache_stats`
(src/cache_dynamodb.py:268-274).  Python float divisions are modelled
exactly over the rationals. -/
structure CacheStats where
  total_entries : Nat
  avg_access_count : Rat
  max_access_count : Nat
  oldest_entry_age_hours : Rat
  newest_entry_age_hours : Rat
deriving Repr, DecidableEq

/-- Python `max` over a (nonempty) list of naturals. -/
def maxN (l : List Nat) : Nat := l.foldl max 0

/-- Python `min` over a list of integers (only used nonempty). -/
def minI : List Int → Int
  | [] => 0
  | x :: xs => xs.foldl min x

/-- Python `max` over a list of integers (only used nonempty). -/
def maxI : List Int → Int
  | [] => 0
  | x :: xs => xs.foldl max x

/-- `get_cache_stats` (src/cache_dynamodb.py:249-278).  `tableOpt = none`
models `_table()` returning `None` (backend unavailable) and `scanOk = false`
models the scan raising, caught by the `except` which returns an error dict;
both yield the explicit error indicator.  Otherwise the stats are computed
over all physically present items, with the `if xs else 0` truthiness
defaults on the empty store. -/
def get_cache_stats (tableOpt : Option Table) (scanOk : Bool) (now : Int) :
    Except String CacheStats :=
  match tableOpt with
  | none => Except.error "DynamoDB table unavailable"
  | some t =>
    if scanOk then
      let access_counts : List Nat := t.map fun p => p.2.access_count
      let created_times : List Int := t.map fun p => p.2.created_at
      Except.ok
        { total_entries := t.length
          avg_access_count :=
            if access_counts.isEmpty then 0
            else (access_counts.sum : Rat) / (access_counts.length : Rat)
          max_access_count := if access_counts.isEmpty then 0 else maxN access_counts
          oldest_entry_age_hours :=
            if created_times.isEmpty then 0
            else ((now : Rat) - (minI created_times : Rat)) / 3600
          newest_entry_age_hours :=
            if created_times.isEmpty then 0
            else ((now : Rat) - (maxI created_times : Rat)) / 3600 }
    else Except.error "scan failed"

/-! ## Paginated sweep with backend failures

`cleanup_expired_cache` (src/cache_dynamodb.py:220-243) and the scan path of
`invalidate_cache` (src/cache_dynamodb.py:183-208) run the same
scan/delete/paginate loop inside a single `try`, whose `except` clause
returns `0`.  To settle how a mid-sweep failure is reported we model the
interaction with the backend directly: a trace of scan responses, each one a
page of (post-filter) item keys or a raised exception. -/

/-- A backend scan trace: the successive responses of `table.scan(...)`,
either a page of item keys or an exception. -/
abbrev ScanTrace := List (Except String (List String))

/-- The scan/delete/paginate loop: every item of a successful page is deleted
and counted; a raised exception is caught by the enclosing `except`, which
returns `0`, discarding the accumulated count. -/
def pagedDeleteLoop : ScanTrace → Nat → Nat
  | [], acc => acc
  | Except.ok page :: rest, acc => pagedDeleteLoop rest (acc + page.length)
  | Except.error _ :: _, _ => 0

/-- The count returned by a paginated bulk delete over the given scan trace. -/
def paged_delete_count (trace : ScanTrace) : Nat :=
  pagedDeleteLoop trace 0

/-- A concrete cache item used to instantiate general theorems:
`expires_at = 100`, `created_at = 90`. -/
def sampleItem : CacheItem :=
  ⟨"sample query", "sample answer", 100, 90, 0, 90, none⟩

/-! ## Basic lemmas about the table operations -/

theorem lookupItem_putItem_self (t : Table) (k : String) (it : CacheItem) :
    lookupItem (putItem t k it) k = some it := by
  simp [lookupItem, putItem]

theorem lookupItem_cons_pos (p : String × CacheItem) (t : Table) (k : String)
    (h : p.1 = k) : lookupItem (p :: t) k = some p.2 := by
  unfold lookupItem
  rw [List.find?_cons_of_pos _ (by simpa using h)]
  rfl

theorem lookupItem_cons_neg (p : String × CacheItem) (t : Table) (k : String)
    (h : ¬p.1 = k) : lookupItem (p :: t) k = lookupItem t k := by
  unfold lookupItem
  rw [List.find?_cons_of_neg _ (by simpa using h)]

theorem updateAccess_cons (p : String × CacheItem) (t : Table) (k : String)
    (now : Int) :
    updateAccess (p :: t) k now =
      (if p.1 == k then
        (p.1, { p.2 with access_count := p.2.access_count + 1, last_accessed := now })
      else p) :: updateAccess t k now := rfl

theorem lookupItem_updateAccess_self (t : Table) (k : String) (now : Int) :
    lookupItem (updateAccess t k now) k =
      (lookupItem t k).map fun it =>
        { it with access_count := it.access_count + 1, last_accessed := now } := by
  induction t with
  | nil => rfl
  | cons p t ih =>
    rw [updateAccess_cons]
    by_cases hpk : p.1 = k
    · rw [if_pos (by simpa using hpk)]
      rw [lookupItem_cons_pos p t k hpk,
        lookupItem_cons_pos
          (p.1, { p.2 with access_count := p.2.access_count + 1, last_accessed := now })
          (updateAccess t k now) k hpk]
      rfl
    · rw [if_neg (by simpa using hpk)]
      rw [lookupItem_cons_neg _ _ _ hpk, lookupItem_cons_neg p t k hpk]
      exact ih

theorem get_after_put_fst (t : Table) (q a : String) (docs : Option String)
    (ttl now t1 : Int) :
    (get_cached_answer (put_cached_answer t q a docs ttl now)
       (create_query_hash q) t1).1 =
      some ⟨q, a, now + ttl, now, 0, now, docs⟩ := by
  simp [get_cached_answer, put_cached_answer, lookupItem_putItem_self]

theorem get_after_put_snd (t : Table) (q a : String) (docs : Option String)
    (ttl now t1 : Int) :
    lookupItem ((get_cached_answer (put_cached_answer t q a docs ttl now)
       (create_query_hash q) t1).2) (create_query_hash q) =
      some ⟨q, a, now + ttl, now, 1, t1, docs⟩ := by
  simp [get_cached_answer, put_cached_answer, lookupItem_putItem_self,
    lookupItem_updateAccess_self]

theorem lookupItem_put_self (t : Table) (q a : String) (docs : Option String)
    (ttl now : Int) :
    lookupItem (put_cached_answer t q a docs ttl now) (create_query_hash q) =
      some ⟨q, a, now + ttl, now, 0, now, docs⟩ := by
  simp [put_cached_answer, lookupItem_putItem_self]

theorem deleteScanned_eq_filter (items : List (String × CacheItem)) (t : Table) :
    deleteScanned t items =
      t.filter fun p => !((items.map fun q => q.1).contains p.1) := by
  induction items generalizing t with
  | nil => simp [deleteScanned]
  | cons i items ih =>
    show deleteScanned (deleteItem t i.1) items = _
    rw [ih]
    simp only [deleteItem, List.filter_filter]
    apply List.filter_congr
    intro p _
    simp only [List.map_cons, List.contains_cons, Bool.not_or, bne]
    exact Bool.and_comm _ _

theorem deleteScanned_self (t : Table) : deleteScanned t t = [] := by
  rw [deleteScanned_eq_filter]
  rw [List.filter_eq_nil_iff]
  intro p hp
  simp only [Bool.not_eq_true, Bool.not_eq_true']
  have : p.1 ∈ t.map fun q => q.1 := List.mem_map_of_mem _ hp
  simpa [List.elem_iff] using this

theorem lookupItem_cleanup_of_expired (t : Table) (k : String) (it : CacheItem)
    (now : Int) (hl : lookupItem t k = some it) (hexp : it.ttl < now) :
    lookupItem (cleanup_expired_cache t now).2 k = none := by
  unfold lookupItem at hl
  cases hfind : t.find? (fun p => p.1 == k) with
  | none => rw [hfind] at hl; cases hl
  | some p0 =>
    rw [hfind] at hl
    have hp0k : p0.1 = k := by simpa using List.find?_some hfind
    have hp0t : p0 ∈ t := List.mem_of_find?_eq_some hfind
    have hp0it : p0.2 = it := by simpa using hl
    have hp0e : p0 ∈ t.filter fun p => p.2.ttl < now := by
      rw [List.mem_filter]
      exact ⟨hp0t, by simp [hp0it, hexp]⟩
    have hk : k ∈ (t.filter fun p => p.2.ttl < now).map fun q => q.1 :=
      hp0k ▸ List.mem_map_of_mem _ hp0e
    show lookupItem (deleteScanned t (t.filter fun p => p.2.ttl < now)) k = none
    rw [deleteScanned_eq_filter]
    unfold lookupItem
    rw [Option.map_eq_none', List.find?_eq_none]
    intro x hx hxk
    rw [List.mem_filter] at hx
    have hx1 : x.1 = k := by simpa using hxk
    have hcon := hx.2
    rw [hx1] at hcon
    have hnk : ¬k ∈ (t.filter fun p => p.2.ttl < now).map fun q => q.1 := by
      simpa [List.contains] using hcon
    exact hnk hk

theorem pagedDeleteLoop_error (pages : List (List String)) (msg : String)
    (rest : ScanTrace) (acc : Nat) :
    pagedDeleteLoop (pages.map Except.ok ++ Except.error msg :: rest) acc = 0 := by
  induction pages generalizing acc with
  | nil => rfl
  | cons pg pages ih => simpa [pagedDeleteLoop] using ih _

theorem pagedDeleteLoop_ok (pages : List (List String)) (acc : Nat) :
    pagedDeleteLoop (pages.map Except.ok) acc = acc + (pages.map List.length).sum := by
  induction pages generalizing acc with
  | nil => simp [pagedDeleteLoop]
  | cons pg pages ih => simp [pagedDeleteLoop, ih, Nat.add_assoc]

/-! ## Lemmas about the fingerprint function -/

theorem wordHex_length (w : Nat) : (wordHex w).length = 8 := rfl

theorem sha256hex_length (s : String) : (sha256hex s).length = 64 := by
  simp [sha256hex, String.length, wordHex_length]

theorem pyNormalize_all_space (s : String) (h : s.data.all isPySpace = true) :
    pyNormalize s = "" := by
  have hd : s.data.dropWhile isPySpace = [] := by
    rw [List.dropWhile_eq_nil_iff]
    intro x hx
    exact List.all_eq_true.mp h x hx
  simp [pyNormalize, pyStrip, pyLower, hd]

theorem create_query_hash_of_ne (s : String) (h : s ≠ "") :
    create_query_hash s = sha256hex (pyNormalize s) := by
  simp [create_query_hash, h]

theorem create_query_hash_ne_sentinel (s : String) (h : s ≠ "") :
    create_query_hash s ≠ "" := by
  rw [create_query_hash_of_ne s h]
  intro he
  have hl := sha256hex_length (pyNormalize s)
  rw [he] at hl
  exact absurd hl (by decide)

/-! ## Settled claims -/

/-- C1 (counterexample): the claim that an expired record is treated as a
miss is false — after `put_cached_answer(q, a, ttl_seconds=0)` at time 100
(expiry timestamp 100), a `get_cached_answer` at time 200 still returns the
record. -/
theorem C1_counterexample_expired_record_returned :
    (get_cached_answer (put_cached_answer [] "hello" "cached answer" none 0 100)
       (create_query_hash "hello") 200).1 =
      some ⟨"hello", "cached answer", 100, 100, 0, 100, none⟩ := by
  simpa using get_after_put_fst [] "hello" "cached answer" none 0 100 200

/-- C1 (amended): `get_cached_answer` performs no expiry check — it returns
exactly the physically present record under the key, whatever `now` is; an
expired record stops being returned only once it is physically deleted, in
particular after `cleanup_expired_cache` sweeps the records with
`ttl < now`. -/
theorem C1_get_returns_physical_record_until_swept :
    (∀ (t : Table) (k : String) (now : Int),
        (get_cached_answer t k now).1 = lookupItem t k) ∧
    (∀ (t : Table) (k : String) (it : CacheItem) (now : Int),
        lookupItem t k = some it → it.ttl < now →
        lookupItem (cleanup_expired_cache t now).2 k = none) := by
  constructor
  · intro t k now
    cases h : lookupItem t k <;> simp [get_cached_answer, h]
  · intro t k it now hl hexp
    exact lookupItem_cleanup_of_expired t k it now hl hexp

/-- Witness for C1 at a concrete store: the sample record (expiry 100) is
returned as-is by a read at time 150, and is gone after a sweep at 200. -/
theorem C1_witness :
    (get_cached_answer [("k", sampleItem)] "k" 150).1 =
      lookupItem [("k", sampleItem)] "k" ∧
    lookupItem (cleanup_expired_cache [("k", sampleItem)] 200).2 "k" = none :=
  ⟨C1_get_returns_physical_record_until_swept.1 [("k", sampleItem)] "k" 150,
   C1_get_returns_physical_record_until_swept.2 [("k", sampleItem)] "k" sampleItem 200
     rfl (by decide)⟩

/-- C2 (counterexample): on an empty store, where no record can be deleted,
`invalidate_cache` with a non-empty `query_hash` still returns 1 — not the 0
the claim requires for an absent key. -/
theorem C2_counterexample_returns_one_when_absent :
    (invalidate_cache [] (some "deadbeef") none).1 = 1 ∧
    (invalidate_cache [] (some "deadbeef") none).1 ≠ 0 := by
  constructor <;> decide

/-- C2 (amended): with a truthy (non-empty) `query_hash`, `invalidate_cache`
issues one unconditional `delete_item` and returns the hard-coded count 1,
whether or not a record with that key was present. -/
theorem C2_invalidate_single_key_always_one :
    ∀ (t : Table) (h : String), h ≠ "" →
      invalidate_cache t (some h) none = (1, deleteItem t h) := by
  intro t h hne
  simp [invalidate_cache, pyTruthy, hne]

/-- Witness for C2: a present key is deleted and counted once. -/
theorem C2_witness :
    ("k" : String) ≠ "" ∧
    invalidate_cache [("k", sampleItem)] (some "k") none =
      (1, deleteItem [("k", sampleItem)] "k") :=
  ⟨by decide, C2_invalidate_single_key_always_one [("k", sampleItem)] "k" (by decide)⟩

/-- C3 (counterexample): the all-whitespace query `"   "` is truthy in
Python, so `create_query_hash` does not map it to the empty-string
sentinel. -/
theorem C3_counterexample_whitespace_not_sentinel :
    create_query_hash "   " ≠ "" :=
  create_query_hash_ne_sentinel "   " (by decide)

/-- C3 (amended): only the genuinely empty (falsy) string maps to the
distinguished sentinel `""`; a non-empty all-whitespace input normalizes to
the empty string and is hashed, yielding the real 64-character SHA-256
digest of `""` — still distinct from the sentinel. -/
theorem C3_sentinel_only_for_empty :
    create_query_hash "" = "" ∧
    ∀ s : String, s ≠ "" → s.data.all isPySpace = true →
      create_query_hash s = sha256hex "" ∧ create_query_hash s ≠ "" ∧
      (create_query_hash s).length = 64 := by
  refine ⟨rfl, ?_⟩
  intro s hne hsp
  have h1 : create_query_hash s = sha256hex "" := by
    rw [create_query_hash_of_ne s hne, pyNormalize_all_space s hsp]
  exact ⟨h1, create_query_hash_ne_sentinel s hne, by rw [h1]; exact sha256hex_length ""⟩

/-- Witness for C3 at the spec's own input `"   "`. -/
theorem C3_witness :
    ("   " : String) ≠ "" ∧ ("   " : String).data.all isPySpace = true ∧
    (create_query_hash "   " = sha256hex "" ∧ create_query_hash "   " ≠ "" ∧
      (create_query_hash "   ").length = 64) :=
  ⟨by decide, by decide, C3_sentinel_only_for_empty.2 "   " (by decide) (by decide)⟩

/-- C4 (counterexample): immediately after `put`, `get` returns the record
read *before* the access-count update — its `access_count` is 0, not 1. -/
theorem C4_counterexample_access_count_zero :
    ((get_cached_answer (put_cached_answer [] "hi" "yo" none 60 100)
        (create_query_hash "hi") 100).1).map (fun it => it.access_count) = some 0 ∧
    ((get_cached_answer (put_cached_answer [] "hi" "yo" none 60 100)
        (create_query_hash "hi") 100).1).map (fun it => it.access_count) ≠ some 1 := by
  rw [get_after_put_fst [] "hi" "yo" none 60 100 100]
  exact ⟨rfl, by simp⟩

/-- C4 (amended): `put(q, a, ttl)` followed immediately by
`get(fingerprint(q))` returns a record with `answer = a` and
`access_count = 0` (the pre-increment value as read); the increment
contributed by the read lands in the store, whose record then carries
`access_count = 1`. -/
theorem C4_roundtrip_returns_pre_increment :
    ∀ (t : Table) (q a : String) (docs : Option String) (ttl now t1 : Int),
      q ≠ "" →
      (get_cached_answer (put_cached_answer t q a docs ttl now)
         (create_query_hash q) t1).1 = some ⟨q, a, now + ttl, now, 0, now, docs⟩ ∧
      lookupItem ((get_cached_answer (put_cached_answer t q a docs ttl now)
         (create_query_hash q) t1).2) (create_query_hash q) =
        some ⟨q, a, now + ttl, now, 1, t1, docs⟩ := by
  intro t q a docs ttl now t1 _
  exact ⟨get_after_put_fst t q a docs ttl now t1, get_after_put_snd t q a docs ttl now t1⟩

/-- Witness for C4 at a concrete round-trip. -/
theorem C4_witness :
    ("hi" : String) ≠ "" ∧
    ((get_cached_answer (put_cached_answer [] "hi" "yo" none 60 100)
        (create_query_hash "hi") 100).1 = some ⟨"hi", "yo", 100 + 60, 100, 0, 100, none⟩ ∧
      lookupItem ((get_cached_answer (put_cached_answer [] "hi" "yo" none 60 100)
        (create_query_hash "hi") 100).2) (create_query_hash "hi") =
        some ⟨"hi", "yo", 100 + 60, 100, 1, 100, none⟩) :=
  ⟨by decide, C4_roundtrip_returns_pre_increment [] "hi" "yo" none 60 100 100 (by decide)⟩

/-- C5 (counterexample): a sweep whose first scan page holds one record
(deleted and counted) and whose second scan call raises returns 0 — not the
count 1 of records already deleted before the failure. -/
theorem C5_counterexample_partial_count_discarded :
    paged_delete_count [Except.ok ["k1"], Except.error "throughput exceeded"] = 0 ∧
    paged_delete_count [Except.ok ["k1"], Except.error "throughput exceeded"] ≠ 1 := by
  constructor <;> decide

/-- C5 (amended): the bulk-deletion loops of `cleanup_expired_cache` and
scan-based `invalidate_cache` never raise to their caller, but on a
scan/pagination failure the enclosing `except` returns 0, discarding the
count accumulated so far; the accumulated count is returned only when every
page succeeds. -/
theorem C5_failure_returns_zero_not_partial_count :
    (∀ (pages : List (List String)) (msg : String) (rest : ScanTrace),
        paged_delete_count (pages.map Except.ok ++ Except.error msg :: rest) = 0) ∧
    (∀ pages : List (List String),
        paged_delete_count (pages.map Except.ok) = (pages.map List.length).sum) := by
  exact ⟨fun pages msg rest => pagedDeleteLoop_error pages msg rest 0,
    fun pages => by simpa using pagedDeleteLoop_ok pages 0⟩

/-- C6 (confirmed): a second `put` for the same query fully replaces the
record — even after an intermediate hit bumped the first record's stats, a
`get` after the second write returns the second answer with `created_at`,
`expires_at` and `access_count` (reset to 0) reflecting only the second
write, with no merge of prior access statistics. -/
theorem C6_overwrite_replaces_record :
    ∀ (t : Table) (q a1 a2 : String) (d1 d2 : Option String)
      (ttl1 ttl2 t0 tr t2 t3 : Int),
      (get_cached_answer
         (put_cached_answer
           ((get_cached_answer (put_cached_answer t q a1 d1 ttl1 t0)
              (create_query_hash q) tr).2)
           q a2 d2 ttl2 t2)
         (create_query_hash q) t3).1 =
        some ⟨q, a2, t2 + ttl2, t2, 0, t2, d2⟩ := by
  intro t q a1 a2 d1 d2 ttl1 ttl2 t0 tr t2 t3
  exact get_after_put_fst _ q a2 d2 ttl2 t2 t3

/-- C7 (confirmed): the fingerprint is a pure function of the normalized
(stripped, lower-cased) query text — two queries with equal non-empty
normalizations get equal fingerprints. -/
theorem C7_fingerprint_determined_by_normalization :
    ∀ q1 q2 : String, pyNormalize q1 = pyNormalize q2 → pyNormalize q1 ≠ "" →
      create_query_hash q1 = create_query_hash q2 := by
  intro q1 q2 heq hne
  have h0 : pyNormalize "" = "" := by decide
  have h1 : q1 ≠ "" := fun h => hne (by rw [h, h0])
  have h2 : q2 ≠ "" := fun h => hne (by rw [heq, h, h0])
  rw [create_query_hash_of_ne q1 h1, create_query_hash_of_ne q2 h2, heq]

/-- Witness for C7: `"  Hello "` and `"hello"` normalize alike and share a
fingerprint. -/
theorem C7_witness :
    pyNormalize "  Hello " = pyNormalize "hello" ∧ pyNormalize "  Hello " ≠ "" ∧
    create_query_hash "  Hello " = create_query_hash "hello" :=
  ⟨by decide, by decide,
   C7_fingerprint_determined_by_normalization "  Hello " "hello" (by decide) (by decide)⟩

/-- C8 (counterexample): with `ttl_seconds = 0` — a value the operation
accepts and the spec's own expiry test exercises — the stored record has
`expires_at = created_at`, violating the claimed strict inequality. -/
theorem C8_counterexample_ttl_zero_not_strict :
    (lookupItem (put_cached_answer [] "hello" "a" none 0 100)
        (create_query_hash "hello")).map (fun it => decide (it.created_at < it.ttl)) =
      some false := by
  rw [lookupItem_put_self]
  simp

/-- C8 (amended): every record written by `put_cached_answer` satisfies
`expires_at = created_at + ttl_seconds`; the expiry is strictly above
`created_at` exactly when `ttl_seconds > 0`, and coincides with it at
`ttl_seconds = 0`. -/
theorem C8_expiry_offset_by_ttl :
    ∀ (t : Table) (q a : String) (docs : Option String) (ttl now : Int),
      lookupItem (put_cached_answer t q a docs ttl now) (create_query_hash q) =
        some ⟨q, a, now + ttl, now, 0, now, docs⟩ ∧
      (now < now + ttl ↔ 0 < ttl) := by
  intro t q a docs ttl now
  exact ⟨lookupItem_put_self t q a docs ttl now, by omega⟩

/-- C9 (confirmed): `get_cache_stats` returns the error indicator exactly
when the table is unavailable or the scan raises; on a reachable empty store
it returns zeroed statistics, never an error. -/
theorem C9_stats_error_iff_unavailable :
    (∀ (tableOpt : Option Table) (scanOk : Bool) (now : Int),
        (∃ e, get_cache_stats tableOpt scanOk now = Except.error e) ↔
          (tableOpt = none ∨ scanOk = false)) ∧
    (∀ now : Int, get_cache_stats (some []) true now = Except.ok ⟨0, 0, 0, 0, 0⟩) := by
  constructor
  · intro tableOpt scanOk now
    cases tableOpt with
    | none => simp [get_cache_stats]
    | some t =>
      cases scanOk with
      | true => simp [get_cache_stats]
      | false => simp [get_cache_stats]
  · intro now
    rfl

/-- C10 (confirmed): `invalidate_cache` called with the empty-string
fingerprint (the empty-sentinel) and no pattern takes the falsy branch: the
unfiltered scan path deletes every record in the store and returns the total
count. -/
theorem C10_empty_hash_deletes_everything :
    ∀ t : Table, invalidate_cache t (some "") none = (t.length, []) := by
  intro t
  have h : invalidate_cache t (some "") none = (t.length, deleteScanned t t) := rfl
  rw [h, deleteScanned_self]

end AgenticQACache
